import Mathlib

/-!
Verification of the `gasadd` (`ga`) command against its design document.

The embedding below translates `cmd/root.go` (the current revision: the
handler with `--force`, the pending-input retry loop and the per-target
skip counters) into Lean.  The collaborators from the unseen support
package `internal/tmux` (`IsInsideTmux`, `GetCurrentContext`,
`SessionExists`, `ListWindows`, `IsClaudeRunning`, `MatchPattern`,
`HasPendingInput`, `AddMessage`) are abstracted as fields of a `TmuxEnv`
record: the handler only observes their results, so each is modelled as a
pure function supplied by the environment.  `HasPendingInput` is called
repeatedly inside the retry loop, so it is modelled as indexed by the
attempt number (the n-th call for a given target returns the n-th sample).
-/

/-- A tmux window as the handler sees it: `tmux.Window` with fields
`Index` (a Go `int`), `Name` and `Command`. -/
structure Window where
  index : Int
  name : String
  command : String
deriving DecidableEq, Repr

/-- The command-line flag state of `cmd/root.go`: `windowFlags`,
`sessionFlag`, `patternFlag`, `anyFlag`, `allFlag`, `dryRunFlag`,
`forceFlag`. -/
structure Flags where
  windowFlags : List String
  sessionFlag : String
  patternFlag : String
  anyFlag : Bool
  allFlag : Bool
  dryRunFlag : Bool
  forceFlag : Bool
deriving DecidableEq, Repr

/-- The errors `runAdd` (and `main`) can signal. -/
inductive RunError where
  | contextFailed : RunError
  | noSessionGiven : RunError
  | sessionNotFound : String → RunError
  | listWindowsFailed : RunError
  | sendFailed : Nat → RunError
deriving DecidableEq, Repr

/-- The collaborator interface of `internal/tmux`, as observed by
`runAdd`.  `hasPendingInput target attempt` is the pair
(result, error-present) returned by the `attempt`-th call of
`tmux.HasPendingInput(target)`; `addMessage target msg` is `none` on
success and `some diag` on a send error. -/
structure TmuxEnv where
  isInsideTmux : Bool
  currentContext : Except Unit (String × Int × String)
  sessionExists : String → Bool
  listWindows : String → Except Unit (List Window)
  isClaudeRunning : Window → Bool
  matchPattern : String → String → Bool
  hasPendingInput : String → Nat → Bool × Bool
  addMessage : String → String → Option String

/-- Session / self-exclusion determination, `runAdd` lines 266-286:
returns the target session, the current-window index used for
self-exclusion (`-1` sentinel when an explicit session is given or the
caller is outside tmux) and the current pane id. -/
def determineSession (env : TmuxEnv) (flags : Flags) :
    Except RunError (String × Int × String) :=
  if env.isInsideTmux then
    match env.currentContext with
    | .error _ => .error .contextFailed
    | .ok (currentSession, currentWindowIdx, paneID) =>
      if flags.sessionFlag ≠ "" then
        .ok (flags.sessionFlag, -1, paneID)
      else
        .ok (currentSession, currentWindowIdx, paneID)
  else
    if flags.sessionFlag = "" then .error .noSessionGiven
    else .ok (flags.sessionFlag, -1, "")

/-- The per-window filter chain of `runAdd` lines 301-327: self-exclusion
(unless `--all`), explicit name/index list, glob pattern.  Note: the
current revision applies no Claude filter here. -/
def keepWindow (flags : Flags) (matchPat : String → String → Bool)
    (currentWindowIndex : Int) (w : Window) : Bool :=
  if !flags.allFlag && decide (0 ≤ currentWindowIndex)
      && w.index == currentWindowIndex then
    false
  else if !flags.windowFlags.isEmpty
      && !flags.windowFlags.any
        (fun name => w.name == name || toString w.index == name) then
    false
  else if flags.patternFlag != ""
      && !matchPat w.name flags.patternFlag then
    false
  else
    true

/-- Target resolution, `runAdd` lines 266-327: context, session check,
window listing, filter chain.  Returns the session, the self-exclusion
index and the ordered target list. -/
def resolveTargets (env : TmuxEnv) (flags : Flags) :
    Except RunError (String × Int × List Window) :=
  match determineSession env flags with
  | .error e => .error e
  | .ok (session, currentWindowIndex, _paneID) =>
    if !env.sessionExists session then
      .error (.sessionNotFound session)
    else
      match env.listWindows session with
      | .error _ => .error .listWindowsFailed
      | .ok windows =>
        .ok (session, currentWindowIndex,
          windows.filter (keepWindow flags env.matchPattern currentWindowIndex))

/-- `maxRetries` constant of the pending-input check (line 363). -/
def maxRetries : Nat := 3

/-- Result of the pending-input retry loop: the final `hasPending` value,
the number of `time.Sleep(retryDelay)` calls, and the number of
`tmux.HasPendingInput` probes made. -/
structure ProbeStats where
  busy : Bool
  delays : Nat
  probes : Nat
deriving DecidableEq, Repr

/-- The retry loop of `runAdd` lines 366-374, with `fuel` the number of
attempts remaining (`maxRetries - attempt`): probe; stop on not-busy;
otherwise sleep only if an attempt remains, then resample. -/
def pendingRetryAux (probe : Nat → Bool × Bool) (attempt : Nat) :
    Nat → ProbeStats
  | 0 => ⟨false, 0, 0⟩
  | fuel + 1 =>
    if !(probe attempt).fst then
      ⟨false, 0, 1⟩
    else if fuel = 0 then
      ⟨true, 0, 1⟩
    else
      let rest := pendingRetryAux probe (attempt + 1) fuel
      ⟨rest.busy, rest.delays + 1, rest.probes + 1⟩

/-- The full pending-input check for one target: up to `maxRetries`
probes starting at attempt 0. -/
def pendingRetry (probe : Nat → Bool × Bool) : ProbeStats :=
  pendingRetryAux probe 0 maxRetries

/-- The per-target delivery outcome (the four disjoint counters of
`runAdd` line 349). -/
inductive Outcome where
  | sent
  | failed
  | deferredBusy
  | skippedNoClaude
deriving DecidableEq, Repr

/-- What delivery did for one target: its outcome, the number of
pending-input probes and sleeps performed, and the `tmux.AddMessage`
invocation if one was made. -/
structure TargetResult where
  outcome : Outcome
  probes : Nat
  delays : Nat
  send : Option (String × String)
deriving DecidableEq, Repr

/-- One iteration of the delivery loop, `runAdd` lines 350-388:
Claude re-check (unless `--any`), pending-input retry (unless
`--force`), then `tmux.AddMessage`. -/
def deliverOne (env : TmuxEnv) (flags : Flags) (session message : String)
    (w : Window) : TargetResult :=
  let target := session ++ ":" ++ toString w.index
  if !flags.anyFlag && !env.isClaudeRunning w then
    ⟨.skippedNoClaude, 0, 0, none⟩
  else
    let stats :=
      if !flags.forceFlag then pendingRetry (env.hasPendingInput target)
      else ⟨false, 0, 0⟩
    if stats.busy then
      ⟨.deferredBusy, stats.probes, stats.delays, none⟩
    else
      match env.addMessage target message with
      | some _ => ⟨.failed, stats.probes, stats.delays, some (target, message)⟩
      | none => ⟨.sent, stats.probes, stats.delays, some (target, message)⟩

/-- The four outcome counters accumulated by the delivery loop. -/
structure Counts where
  succeeded : Nat
  failed : Nat
  skippedTyping : Nat
  skippedNoClaude : Nat
deriving DecidableEq, Repr

/-- Tally of a list of per-target results, mirroring the `succeeded++`
etc. increments of `runAdd` lines 349-388. -/
def countOutcomes (rs : List TargetResult) : Counts :=
  ⟨rs.countP (fun r => r.outcome == .sent),
   rs.countP (fun r => r.outcome == .failed),
   rs.countP (fun r => r.outcome == .deferredBusy),
   rs.countP (fun r => r.outcome == .skippedNoClaude)⟩

/-- The result reporting of `runAdd` lines 394-414: an error is returned
exactly when `failed > 0`. -/
def reportResult (c : Counts) : Except RunError Unit :=
  if c.failed > 0 || c.skippedTyping + c.skippedNoClaude > 0 then
    if c.failed > 0 then .error (.sendFailed c.failed)
    else .ok ()
  else .ok ()

/-- Decidable equality for `Except`, needed to compare run results on
concrete inputs. -/
instance exceptDecEq {ε α : Type} [DecidableEq ε] [DecidableEq α] :
    DecidableEq (Except ε α) := fun a b =>
  match a, b with
  | .error e, .error f =>
    if h : e = f then isTrue (by rw [h])
    else isFalse (fun hh => by cases hh; exact h rfl)
  | .error _, .ok _ => isFalse (fun hh => by cases hh)
  | .ok _, .error _ => isFalse (fun hh => by cases hh)
  | .ok x, .ok y =>
    if h : x = y then isTrue (by rw [h])
    else isFalse (fun hh => by cases hh; exact h rfl)

/-- What one invocation of `runAdd` did: a fatal early error, the
"no targets" early success, a dry-run rendering (targets with their
current Claude annotation, plus the message), or a delivery pass with
its per-target results and final report. -/
inductive RunResult where
  | fatal : RunError → RunResult
  | noTargets : RunResult
  | dryRun : String → List (Window × Bool) → String → RunResult
  | delivered : String → List Window → List TargetResult →
      Except RunError Unit → RunResult
deriving DecidableEq, Repr

/-- The full `runAdd` handler (lines 258-418): join the message, resolve
targets, stop successfully on an empty list, render on dry-run, else
deliver to each target in order and report. -/
def runAdd (env : TmuxEnv) (flags : Flags) (args : List String) : RunResult :=
  let message := String.intercalate " " args
  match resolveTargets env flags with
  | .error e => .fatal e
  | .ok (session, _currentWindowIndex, targets) =>
    if targets.isEmpty then
      .noTargets
    else if flags.dryRunFlag then
      .dryRun session (targets.map fun w => (w, env.isClaudeRunning w)) message
    else
      let results := targets.map (deliverOne env flags session message)
      .delivered session targets results (reportResult (countOutcomes results))

/-- The error value `runAdd` returns to cobra for each `RunResult`. -/
def runExit : RunResult → Except RunError Unit
  | .fatal e => .error e
  | .noTargets => .ok ()
  | .dryRun _ _ _ => .ok ()
  | .delivered _ _ _ res => res

/-- The process exit code chosen by `main.go`: 1 when `Execute` returned
an error, 0 otherwise. -/
def mainExitCode (r : RunResult) : Nat :=
  match runExit r with
  | .error _ => 1
  | .ok _ => 0

/-- All `tmux.AddMessage` invocations a run performed. -/
def RunResult.sends : RunResult → List (String × String)
  | .delivered _ _ rs _ => rs.filterMap (fun r => r.send)
  | _ => []

/-- Total number of `tmux.HasPendingInput` probes a run performed. -/
def RunResult.probeCount : RunResult → Nat
  | .delivered _ _ rs _ => (rs.map (fun r => r.probes)).sum
  | _ => 0

/-- Modelled from the spec: `internal/tmux.HasPendingInput` itself is not
among the sources (only its call sites are).  Per the design document, a
probe whose underlying pane inspection fails reports not-busy (the
optimistic default) together with the error, instead of propagating the
failure.  `inspect` is the raw, fallible pane inspection, indexed by the
attempt number. -/
def hasPendingInputSpec (inspect : Nat → Except String Bool)
    (attempt : Nat) : Bool × Bool :=
  match inspect attempt with
  | .error _ => (false, true)
  | .ok b => (b, false)

/-!
Concrete fixtures used to evaluate the embedding on closed inputs.
-/

/-- Default flag state: no explicit windows, no session override, no
pattern, `--any`/`--all`/`--dry-run`/`--force` all off. -/
def flagsDefault : Flags := ⟨[], "", "", false, false, false, false⟩

/-- Flag state with an explicit session override `-s s` (caller outside
tmux in the `env2` fixture). -/
def flags2 : Flags := ⟨[], "s", "", false, false, false, false⟩

/-- Flag state with an explicit session override `-s other`. -/
def flags6 : Flags := ⟨[], "other", "", false, false, false, false⟩

/-- Default flags with `--dry-run` set. -/
def flags9 : Flags := ⟨[], "", "", false, false, true, false⟩

/-- The caller's own window in the fixtures (index 0, running a shell). -/
def wMain : Window := ⟨0, "main", "bash"⟩

/-- An agent window named `worker`. -/
def wWorker : Window := ⟨1, "worker", "claude"⟩

/-- An agent window named `build`. -/
def wBuild : Window := ⟨2, "build", "claude"⟩

/-- A non-agent window sharing the name `worker` but running a shell. -/
def wShell : Window := ⟨1, "worker", "bash"⟩

/-- Scenario windows for the three-outcome delivery fixture. -/
def wA : Window := ⟨0, "alpha", "claude"⟩

/-- Second scenario window (its send will fail). -/
def wB : Window := ⟨1, "beta", "claude"⟩

/-- Third scenario window (busy on every probe). -/
def wC : Window := ⟨2, "gamma", "claude"⟩

/-- Environment: inside tmux in session `work` at window 0, three
windows of which `worker` and `build` run the agent; never busy; sends
succeed. -/
def envA : TmuxEnv :=
  ⟨true, .ok ("work", 0, "%1"), fun _ => true,
   fun _ => .ok [wMain, wWorker, wBuild],
   fun w => w.command == "claude", fun n p => n == p,
   fun _ _ => (false, false), fun _ _ => none⟩

/-- Environment with a single non-agent window: the classifier returns
false on everything. -/
def env1 : TmuxEnv :=
  ⟨true, .ok ("work", 0, "%1"), fun _ => true, fun _ => .ok [wShell],
   fun _ => false, fun n p => n == p, fun _ _ => (false, false),
   fun _ _ => none⟩

/-- Environment for the three-outcome scenario: caller outside tmux,
session `s` has windows `wA` (send succeeds), `wB` (send errors) and
`wC` (busy on every probe). -/
def env2 : TmuxEnv :=
  ⟨false, .error (), fun _ => true, fun _ => .ok [wA, wB, wC],
   fun _ => true, fun n p => n == p,
   fun t _ => (t == "s:2", false),
   fun t _ => if t == "s:1" then some "send error" else none⟩

/-- The per-target results of delivering `"sync"` in `env2`. -/
def rs2 : List TargetResult :=
  [⟨.sent, 1, 0, some ("s:0", "sync")⟩,
   ⟨.failed, 1, 0, some ("s:1", "sync")⟩,
   ⟨.deferredBusy, 3, 2, none⟩]

/-- Environment whose only window is the caller's own, so default
filtering leaves no targets. -/
def env8 : TmuxEnv :=
  ⟨true, .ok ("work", 0, "%1"), fun _ => true, fun _ => .ok [wMain],
   fun _ => true, fun n p => n == p, fun _ _ => (false, false),
   fun _ _ => none⟩

/-!
Helper lemmas shared by the claim theorems.
-/

/-- Inversion for a run that reached the delivery loop: the result list
is the map of `deliverOne` over the targets and the final value is the
report of its tally. -/
theorem runAdd_delivered_inv (env : TmuxEnv) (flags : Flags)
    (args : List String) (s : String) (ts : List Window)
    (rs : List TargetResult) (res : Except RunError Unit)
    (h : runAdd env flags args = .delivered s ts rs res) :
    rs = ts.map (deliverOne env flags s (String.intercalate " " args)) ∧
    res = reportResult (countOutcomes rs) := by
  unfold runAdd at h
  cases hres : resolveTargets env flags with
  | error e => rw [hres] at h; simp at h
  | ok triple =>
    obtain ⟨session, cwi, targets⟩ := triple
    rw [hres] at h
    simp only at h
    by_cases hemp : targets.isEmpty
    · rw [if_pos hemp] at h; simp at h
    · rw [if_neg hemp] at h
      by_cases hdry : flags.dryRunFlag
      · rw [if_pos hdry] at h; simp at h
      · rw [if_neg hdry] at h
        injection h with h1 h2 h3 h4
        subst h1; subst h2; subst h3; subst h4
        exact ⟨rfl, rfl⟩

/-- The four outcome counters always sum to the number of results. -/
theorem countOutcomes_sum (rs : List TargetResult) :
    (countOutcomes rs).succeeded + (countOutcomes rs).failed +
      (countOutcomes rs).skippedTyping + (countOutcomes rs).skippedNoClaude
      = rs.length := by
  induction rs with
  | nil => rfl
  | cons r rest ih =>
    simp only [countOutcomes, List.countP_cons, List.length_cons] at *
    cases hr : r.outcome <;> simp [hr] at * <;> omega

/-- Closed-form case analysis of the pending-input retry loop on the
first three samples. -/
theorem pendingRetry_cases (probe : Nat → Bool × Bool) :
    pendingRetry probe =
      if !(probe 0).fst then ⟨false, 0, 1⟩
      else if !(probe 1).fst then ⟨false, 1, 2⟩
      else if !(probe 2).fst then ⟨false, 2, 3⟩
      else ⟨true, 2, 3⟩ := by
  cases h0 : (probe 0).fst <;> cases h1 : (probe 1).fst <;>
    cases h2 : (probe 2).fst <;>
    simp [pendingRetry, pendingRetryAux, maxRetries, h0, h1, h2]

/-- The detector reports busy exactly when all three samples were busy. -/
theorem pendingRetry_busy_eq (probe : Nat → Bool × Bool) :
    (pendingRetry probe).busy
      = ((probe 0).fst && (probe 1).fst && (probe 2).fst) := by
  rw [pendingRetry_cases]
  cases h0 : (probe 0).fst <;> cases h1 : (probe 1).fst <;>
    cases h2 : (probe 2).fst <;> simp [h0, h1, h2]

/-- The spec-modelled probe samples busy exactly when the raw inspection
succeeded with a busy report. -/
theorem hasPendingInputSpec_fst (inspect : Nat → Except String Bool)
    (i : Nat) :
    (hasPendingInputSpec inspect i).fst = true ↔ inspect i = .ok true := by
  unfold hasPendingInputSpec
  cases h : inspect i with
  | error e => simp
  | ok b => cases b <;> simp

/-- A target can only end up `Failed` when the send collaborator was
invoked and returned an error. -/
theorem deliverOne_failed_isSome (env : TmuxEnv) (flags : Flags)
    (session message : String) (w : Window) :
    (deliverOne env flags session message w).outcome = Outcome.failed →
    (env.addMessage (session ++ ":" ++ toString w.index) message).isSome
      = true := by
  intro h
  unfold deliverOne at h
  cases hsend : env.addMessage (session ++ ":" ++ toString w.index) message <;>
    simp only [hsend] at h <;> simp [hsend]
  split at h <;> (try split at h) <;> (try split at h) <;> simp_all

/-- Characterization of `deliverOne`: each target gets exactly one
outcome — `skippedNoClaude` when agent-only mode is on and the window is
not an agent window; else `deferredBusy` when, without `--force`, the
retry loop ends busy; else `failed`/`sent` by the send collaborator's
answer — and a send is attempted exactly for `sent`/`failed`. -/
theorem deliverOne_spec (env : TmuxEnv) (flags : Flags)
    (session message : String) (w : Window) :
    ((deliverOne env flags session message w).outcome
        = Outcome.skippedNoClaude ↔
      (flags.anyFlag = false ∧ env.isClaudeRunning w = false)) ∧
    ((deliverOne env flags session message w).outcome
        = Outcome.deferredBusy ↔
      ((flags.anyFlag = true ∨ env.isClaudeRunning w = true) ∧
       flags.forceFlag = false ∧
       (pendingRetry (env.hasPendingInput
          (session ++ ":" ++ toString w.index))).busy = true)) ∧
    ((deliverOne env flags session message w).outcome = Outcome.failed ↔
      ((flags.anyFlag = true ∨ env.isClaudeRunning w = true) ∧
       (flags.forceFlag = true ∨
        (pendingRetry (env.hasPendingInput
           (session ++ ":" ++ toString w.index))).busy = false) ∧
       (env.addMessage (session ++ ":" ++ toString w.index) message).isSome
         = true)) ∧
    ((deliverOne env flags session message w).outcome = Outcome.sent ↔
      ((flags.anyFlag = true ∨ env.isClaudeRunning w = true) ∧
       (flags.forceFlag = true ∨
        (pendingRetry (env.hasPendingInput
           (session ++ ":" ++ toString w.index))).busy = false) ∧
       env.addMessage (session ++ ":" ++ toString w.index) message
         = none)) ∧
    ((deliverOne env flags session message w).send.isSome = true ↔
      ((deliverOne env flags session message w).outcome = Outcome.sent ∨
       (deliverOne env flags session message w).outcome
         = Outcome.failed)) ∧
    ((deliverOne env flags session message w).send = none ∨
      (deliverOne env flags session message w).send
        = some (session ++ ":" ++ toString w.index, message)) := by
  cases hany : flags.anyFlag <;> cases hcl : env.isClaudeRunning w <;>
    cases hforce : flags.forceFlag <;>
    cases hbusy : (pendingRetry (env.hasPendingInput
      (session ++ ":" ++ toString w.index))).busy <;>
    cases hsend : env.addMessage (session ++ ":" ++ toString w.index)
      message <;>
    simp [deliverOne, hany, hcl, hforce, hbusy, hsend]

/-- C1 (counterexample): with default flags (no `--any`), the resolver
returns a target list containing a window the Agent Classifier rejects,
so the resolved target list does not contain only agent windows. -/
theorem c1_resolver_keeps_nonagent_counterexample :
    flagsDefault.anyFlag = false ∧
    resolveTargets env1 flagsDefault = Except.ok ("work", 0, [wShell]) ∧
    env1.isClaudeRunning wShell = false := by decide

/-- C1 (amended): the resolver's filter chain never consults the Agent
Classifier (its output is unchanged under any replacement of the
classifier), and instead, when non-agent windows are not explicitly
included, the delivery executor records `skippedNoClaude` for a
non-agent target without any probe or send. -/
theorem c1_nonagent_skipped_at_delivery :
    (∀ env flags claude2, resolveTargets
        { env with isClaudeRunning := claude2 } flags
        = resolveTargets env flags) ∧
    (∀ env flags session message w, flags.anyFlag = false →
      env.isClaudeRunning w = false →
      deliverOne env flags session message w
        = ⟨Outcome.skippedNoClaude, 0, 0, none⟩) := by
  constructor
  · intro env flags claude2
    cases env
    rfl
  · intro env flags session message w h1 h2
    simp [deliverOne, h1, h2]

/-- C1 (witness): the non-agent window of `env1` is skipped at delivery
with no probe and no send. -/
theorem c1_nonagent_skipped_witness :
    deliverOne env1 flagsDefault "work" "msg" wShell
      = ⟨Outcome.skippedNoClaude, 0, 0, none⟩ :=
  c1_nonagent_skipped_at_delivery.2 env1 flagsDefault "work" "msg" wShell
    rfl rfl

/-- C2: every target is assigned exactly one outcome by the rule
skipped-no-agent / deferred-busy / sent / failed (with sends attempted
exactly for the last two), and in the concrete three-target scenario
(A sends, B's send errors, C is busy on all retries) the tally is
succeeded 1, failed 1, deferred 1, and the run reports failure. -/
theorem c2_delivery_outcome_rule :
    (∀ env flags session message w,
      ((deliverOne env flags session message w).outcome
          = Outcome.skippedNoClaude ↔
        (flags.anyFlag = false ∧ env.isClaudeRunning w = false)) ∧
      ((deliverOne env flags session message w).outcome
          = Outcome.deferredBusy ↔
        ((flags.anyFlag = true ∨ env.isClaudeRunning w = true) ∧
         flags.forceFlag = false ∧
         (pendingRetry (env.hasPendingInput
            (session ++ ":" ++ toString w.index))).busy = true)) ∧
      ((deliverOne env flags session message w).outcome = Outcome.failed ↔
        ((flags.anyFlag = true ∨ env.isClaudeRunning w = true) ∧
         (flags.forceFlag = true ∨
          (pendingRetry (env.hasPendingInput
             (session ++ ":" ++ toString w.index))).busy = false) ∧
         (env.addMessage (session ++ ":" ++ toString w.index) message).isSome
           = true)) ∧
      ((deliverOne env flags session message w).outcome = Outcome.sent ↔
        ((flags.anyFlag = true ∨ env.isClaudeRunning w = true) ∧
         (flags.forceFlag = true ∨
          (pendingRetry (env.hasPendingInput
             (session ++ ":" ++ toString w.index))).busy = false) ∧
         env.addMessage (session ++ ":" ++ toString w.index) message
           = none)) ∧
      ((deliverOne env flags session message w).send.isSome = true ↔
        ((deliverOne env flags session message w).outcome = Outcome.sent ∨
         (deliverOne env flags session message w).outcome
           = Outcome.failed)) ∧
      ((deliverOne env flags session message w).send = none ∨
        (deliverOne env flags session message w).send
          = some (session ++ ":" ++ toString w.index, message))) ∧
    runAdd env2 flags2 ["sync"]
      = RunResult.delivered "s" [wA, wB, wC] rs2
          (Except.error (RunError.sendFailed 1)) ∧
    countOutcomes rs2 = ⟨1, 1, 1, 0⟩ :=
  ⟨deliverOne_spec, by decide, by decide⟩

/-- C3: the pending-input detector makes at most 3 probes, waits exactly
one delay between consecutive probes (none after the last), reports busy
exactly when all three samples were busy, stops at the first not-busy
sample (every earlier sample was busy, and the last sample is not busy
unless the budget was exhausted busy); busy/busy/not-busy yields
not-busy after 2 delays, all-busy yields busy after 2 delays. -/
theorem c3_pending_retry_budget :
    (∀ probe : Nat → Bool × Bool,
      (pendingRetry probe).probes ≤ 3 ∧
      (pendingRetry probe).delays = (pendingRetry probe).probes - 1 ∧
      (pendingRetry probe).busy
        = ((probe 0).fst && (probe 1).fst && (probe 2).fst) ∧
      ((pendingRetry probe).busy
        || !(probe ((pendingRetry probe).probes - 1)).fst) = true ∧
      (List.range ((pendingRetry probe).probes - 1)).all
        (fun j => (probe j).fst) = true) ∧
    pendingRetry (fun n => (decide (n < 2), false)) = ⟨false, 2, 3⟩ ∧
    pendingRetry (fun _ => (true, false)) = ⟨true, 2, 3⟩ := by
  refine ⟨?_, by decide, by decide⟩
  intro probe
  rw [pendingRetry_cases probe]
  split_ifs with h0 h1 h2 <;>
    simp_all [List.range_succ, List.range_zero]

/-- C4: a run that reaches delivery returns an error exactly when at
least one actually-attempted send failed (and then it is the
`sendFailed` tally); an all-skipped or all-deferred run returns
success. -/
theorem c4_exit_iff_send_failure :
    ∀ env flags args s ts rs res,
      runAdd env flags args = RunResult.delivered s ts rs res →
      ((res = Except.ok ()) ↔ (countOutcomes rs).failed = 0) ∧
      ((countOutcomes rs).failed ≠ 0 →
        res = Except.error (RunError.sendFailed (countOutcomes rs).failed)) ∧
      ((countOutcomes rs).failed ≠ 0 ↔
        ∃ r ∈ rs, r.outcome = Outcome.failed ∧ r.send.isSome = true) ∧
      ((∀ r ∈ rs, r.outcome = Outcome.skippedNoClaude ∨
          r.outcome = Outcome.deferredBusy) → res = Except.ok ()) := by
  intro env flags args s ts rs res h
  obtain ⟨hrs, hres⟩ := runAdd_delivered_inv env flags args s ts rs res h
  have hrep : (res = Except.ok ()) ↔ (countOutcomes rs).failed = 0 := by
    subst hres
    unfold reportResult
    by_cases hf : (countOutcomes rs).failed = 0
    · by_cases hs : (countOutcomes rs).skippedTyping
          + (countOutcomes rs).skippedNoClaude > 0 <;>
        simp [hf, hs]
    · simp [hf, Nat.pos_of_ne_zero hf]
  refine ⟨hrep, ?_, ?_, ?_⟩
  · intro hf
    subst hres
    unfold reportResult
    simp [hf, Nat.pos_of_ne_zero hf]
  · constructor
    · intro hne
      have hpos : 0 < rs.countP (fun r => r.outcome == Outcome.failed) :=
        Nat.pos_of_ne_zero hne
      obtain ⟨r, hmem, hp⟩ := List.countP_pos_iff.mp hpos
      have hout : r.outcome = Outcome.failed := by simpa using hp
      refine ⟨r, hmem, hout, ?_⟩
      rw [hrs] at hmem
      obtain ⟨w, _hw, hrw⟩ := List.mem_map.mp hmem
      rw [← hrw]
      exact ((deliverOne_spec env flags s
        (String.intercalate " " args) w).2.2.2.2.1).mpr
        (Or.inr (by rw [hrw]; exact hout))
    · rintro ⟨r, hmem, hout, -⟩
      have hpos : 0 < rs.countP (fun r => r.outcome == Outcome.failed) :=
        List.countP_pos_iff.mpr ⟨r, hmem, by simp [hout]⟩
      exact Nat.pos_iff_ne_zero.mp hpos
  · intro hall
    apply hrep.mpr
    have hzero : rs.countP (fun r => r.outcome == Outcome.failed) = 0 := by
      apply List.countP_eq_zero.mpr
      intro r hr
      rcases hall r hr with hh | hh <;> simp [hh]
    exact hzero

/-- C4 (witness): in the three-target scenario the run reports the
`sendFailed` error carrying the failed tally. -/
theorem c4_exit_iff_send_failure_witness :
    (Except.error (RunError.sendFailed 1) : Except RunError Unit)
      = Except.error (RunError.sendFailed (countOutcomes rs2).failed) :=
  (c4_exit_iff_send_failure env2 flags2 ["sync"] "s" [wA, wB, wC] rs2
    (Except.error (RunError.sendFailed 1)) (by decide)).2.1 (by decide)

/-- C5: with the spec-modelled probe (inspection errors report
not-busy), the detector can only report busy when all three raw
inspections genuinely succeeded busy; an always-failing inspection
yields not-busy immediately; and a target is only ever recorded `failed`
because the send collaborator errored, never because of a probe. -/
theorem c5_probe_error_not_busy :
    (∀ inspect : Nat → Except String Bool,
      (pendingRetry (hasPendingInputSpec inspect)).busy = true →
        ∀ i, i < maxRetries → inspect i = .ok true) ∧
    (∀ e : String,
      pendingRetry (hasPendingInputSpec (fun _ => .error e))
        = ⟨false, 0, 1⟩) ∧
    (∀ env flags session message w,
      (deliverOne env flags session message w).outcome = Outcome.failed →
      (env.addMessage (session ++ ":" ++ toString w.index) message).isSome
        = true) := by
  refine ⟨?_, ?_, deliverOne_failed_isSome⟩
  · intro inspect hbusy i hi
    have hb := pendingRetry_busy_eq (hasPendingInputSpec inspect)
    rw [hbusy] at hb
    obtain ⟨b0, b1, b2⟩ : (hasPendingInputSpec inspect 0).fst = true ∧
        (hasPendingInputSpec inspect 1).fst = true ∧
        (hasPendingInputSpec inspect 2).fst = true := by
      simpa [Bool.and_eq_true, and_assoc] using hb.symm
    simp only [maxRetries] at hi
    interval_cases i
    · exact (hasPendingInputSpec_fst inspect 0).mp b0
    · exact (hasPendingInputSpec_fst inspect 1).mp b1
    · exact (hasPendingInputSpec_fst inspect 2).mp b2
  · intro e
    rw [pendingRetry_cases]
    simp [hasPendingInputSpec]

/-- C5 (witness): a deferral needs all-busy inspections, and an
always-erroring inspection yields not-busy after one probe. -/
theorem c5_probe_error_not_busy_witness :
    ((fun _ : Nat => (Except.ok true : Except String Bool)) 0
        = Except.ok true) ∧
    pendingRetry (hasPendingInputSpec (fun _ => Except.error "boom"))
      = ⟨false, 0, 1⟩ :=
  ⟨c5_probe_error_not_busy.1 (fun _ => Except.ok true) (by decide) 0
    (by decide),
   c5_probe_error_not_busy.2.1 "boom"⟩

/-- C6: when invoked inside tmux with an explicit session override,
self-exclusion is disabled via the `-1` sentinel: resolution uses the
override session with index `-1`, and filtering with the sentinel
behaves exactly like filtering with `--all` at the caller's index — no
window is dropped as the caller's own, even one sharing that index. -/
theorem c6_session_override_disables_self_exclusion :
    ∀ env flags cs ci pid, env.isInsideTmux = true →
      env.currentContext = Except.ok (cs, ci, pid) →
      flags.sessionFlag ≠ "" →
      determineSession env flags = Except.ok (flags.sessionFlag, -1, pid) ∧
      (∀ mp w, keepWindow flags mp (-1) w
        = keepWindow { flags with allFlag := true } mp ci w) := by
  intro env flags cs ci pid h1 h2 h3
  constructor
  · simp [determineSession, h1, h2, h3]
  · intro mp w
    simp [keepWindow]

/-- C6 (witness): targeting session `other` from inside session `work`
at window 0 resolves with the `-1` sentinel. -/
theorem c6_session_override_witness :
    determineSession envA flags6 = Except.ok ("other", -1, "%1") :=
  (c6_session_override_disables_self_exclusion envA flags6 "work" 0 "%1"
    rfl rfl (by decide)).1

/-- C7: with a non-empty explicit name/index list (and no pattern, and
the self stage passing), a window is kept exactly when its name or its
decimal-stringified index equals some list entry; over windows
0 `main` / 1 `worker` / 2 `build` with list `["worker"]`, exactly
window 1 is kept. -/
theorem c7_explicit_list_filter :
    (∀ flags (mp : String → String → Bool) (cwi : Int) (w : Window),
      flags.windowFlags ≠ [] → flags.patternFlag = "" →
      (flags.allFlag = true ∨ cwi < 0) →
      (keepWindow flags mp cwi w = true ↔
        ∃ entry ∈ flags.windowFlags,
          w.name = entry ∨ toString w.index = entry)) ∧
    [(⟨0, "main", "bash"⟩ : Window), ⟨1, "worker", "claude"⟩,
        ⟨2, "build", "claude"⟩].filter
        (keepWindow ⟨["worker"], "", "", false, false, false, false⟩
          (fun n p => n == p) 0)
      = [⟨1, "worker", "claude"⟩] := by
  refine ⟨?_, by decide⟩
  intro flags mp cwi w hw hp hself
  have hfirst : (!flags.allFlag && decide (0 ≤ cwi)
      && w.index == cwi) = false := by
    rcases hself with h | h
    · simp [h]
    · have hneg : ¬ (0 ≤ cwi) := by omega
      simp [hneg]
  simp [keepWindow, hfirst, hp, hw, List.any_eq_true]
  constructor
  · rintro ⟨x, hx, himp⟩
    exact ⟨x, hx, or_iff_not_imp_left.mpr himp⟩
  · rintro ⟨x, hx, hor⟩
    exact ⟨x, hx, or_iff_not_imp_left.mp hor⟩

/-- C7 (witness): window 1 `worker` is kept by the list `["worker"]`. -/
theorem c7_explicit_list_filter_witness :
    keepWindow ⟨["worker"], "", "", false, false, false, false⟩
      (fun n p => n == p) (-1) ⟨1, "worker", "claude"⟩ = true :=
  (c7_explicit_list_filter.1 ⟨["worker"], "", "", false, false, false, false⟩
    (fun n p => n == p) (-1) ⟨1, "worker", "claude"⟩
    (by decide) rfl (Or.inr (by decide))).mpr
    ⟨"worker", by decide, Or.inl rfl⟩

/-- C8: when the filter chain yields an empty target list the run
reports "no targets" and returns success, with no delivery, no dry-run
rendering, no send and no probe. -/
theorem c8_empty_targets_success :
    ∀ env flags args s cwi,
      resolveTargets env flags = Except.ok (s, cwi, []) →
      runAdd env flags args = RunResult.noTargets ∧
      runExit RunResult.noTargets = Except.ok () ∧
      RunResult.sends RunResult.noTargets = [] ∧
      RunResult.probeCount RunResult.noTargets = 0 := by
  intro env flags args s cwi h
  refine ⟨?_, rfl, rfl, rfl⟩
  unfold runAdd
  rw [h]
  simp

/-- C8 (witness): a session whose only window is the caller's own
resolves to no targets and the run exits with the no-targets report. -/
theorem c8_empty_targets_success_witness :
    runAdd env8 flagsDefault ["m"] = RunResult.noTargets :=
  (c8_empty_targets_success env8 flagsDefault ["m"] "work" 0 (by decide)).1

/-- C9: with `--dry-run` and a non-empty target list, the run renders
the resolved targets with their current agent-classification annotation
and the message, returns success, and performs no send and no
pending-input probe. -/
theorem c9_dry_run_no_delivery :
    ∀ env flags args s cwi ts,
      resolveTargets env flags = Except.ok (s, cwi, ts) →
      ts.isEmpty = false → flags.dryRunFlag = true →
      runAdd env flags args
        = RunResult.dryRun s (ts.map fun w => (w, env.isClaudeRunning w))
            (String.intercalate " " args) ∧
      runExit (runAdd env flags args) = Except.ok () ∧
      RunResult.sends (runAdd env flags args) = [] ∧
      RunResult.probeCount (runAdd env flags args) = 0 := by
  intro env flags args s cwi ts hres hemp hdry
  have h1 : runAdd env flags args
      = RunResult.dryRun s (ts.map fun w => (w, env.isClaudeRunning w))
          (String.intercalate " " args) := by
    unfold runAdd
    rw [hres]
    simp [hemp, hdry]
  exact ⟨h1, by rw [h1]; rfl, by rw [h1]; rfl, by rw [h1]; rfl⟩

/-- C9 (witness): a dry run over `envA` renders the two agent windows
with their annotations and delivers nothing. -/
theorem c9_dry_run_no_delivery_witness :
    runAdd envA flags9 ["test"]
      = RunResult.dryRun "work" [(wWorker, true), (wBuild, true)] "test" := by
  have h := (c9_dry_run_no_delivery envA flags9 ["test"] "work" 0
    [wWorker, wBuild] (by decide) rfl rfl).1
  rw [h]
  decide

/-- C10: for a run that reaches the delivery loop, the four outcome
counters partition the resolved target list: their sum equals the number
of resolved targets (one result per target). -/
theorem c10_counters_partition :
    ∀ env flags args s ts rs res,
      runAdd env flags args = RunResult.delivered s ts rs res →
      (countOutcomes rs).succeeded + (countOutcomes rs).failed +
        (countOutcomes rs).skippedTyping + (countOutcomes rs).skippedNoClaude
        = ts.length ∧ rs.length = ts.length := by
  intro env flags args s ts rs res h
  obtain ⟨hrs, -⟩ := runAdd_delivered_inv env flags args s ts rs res h
  have hlen : rs.length = ts.length := by rw [hrs, List.length_map]
  exact ⟨by rw [countOutcomes_sum, hlen], hlen⟩

/-- C10 (witness): in the three-target scenario the counters sum to 3. -/
theorem c10_counters_partition_witness :
    (countOutcomes rs2).succeeded + (countOutcomes rs2).failed +
      (countOutcomes rs2).skippedTyping + (countOutcomes rs2).skippedNoClaude
      = 3 :=
  (c10_counters_partition env2 flags2 ["sync"] "s" [wA, wB, wC] rs2
    (Except.error (RunError.sendFailed 1)) (by decide)).1
